import Mathlib

/-!
Shallow embedding of the `bigcommerce.go` transport core and query-parameter
encoder of the storefront-generator repository, together with proofs about it.

Machine integers (`int`) are modelled as `Int`, `float64` field values as `Rat`,
`*bool` as `Option Bool`, slices as `List`, and fallible Go operations as
`Except`/`Option` results.  `url.Values` (a map from key to the slice of values
added under that key) is modelled as the list of `Add` calls in call order,
which determines the map exactly.
-/

/-- Go `strconv.FormatBool`. -/
def formatBool (b : Bool) : String := if b then "true" else "false"

/-- Go `strconv.Itoa` applied to the `int` values in `QueryParams`. -/
def itoa (i : Int) : String := toString i

/-- Go `strconv.FormatFloat(x, 'f', 2, 64)`; the `float64` field values are
modelled as rationals and rendered with exactly two fractional digits. -/
def formatFloat2 (x : Rat) : String :=
  let c : Int := round (100 * x)
  let a := c.natAbs
  (if c < 0 then "-" else "") ++ toString (a / 100) ++ "." ++
    (if a % 100 < 10 then "0" else "") ++ toString (a % 100)

/-- The UTF-8 bytes of a character, as naturals below 256. -/
def utf8Bytes (c : Char) : List Nat :=
  let n := c.toNat
  if n < 128 then [n]
  else if n < 2048 then [192 + n / 64, 128 + n % 64]
  else if n < 65536 then [224 + n / 4096, 128 + n / 64 % 64, 128 + n % 64]
  else [240 + n / 262144, 128 + n / 4096 % 64, 128 + n / 64 % 64, 128 + n % 64]

/-- A byte Go's `url.shouldEscape` leaves unescaped in a query component:
alphanumerics and `-`, `_`, `.`, `~` (codes 45, 95, 46, 126). -/
def isUnreservedByte (b : Nat) : Bool :=
  (48 ≤ b && b ≤ 57) || (65 ≤ b && b ≤ 90) || (97 ≤ b && b ≤ 122) ||
    b == 45 || b == 95 || b == 46 || b == 126

/-- Upper-case hexadecimal digit, as Go's percent-escaping writes it. -/
def hexDigit (n : Nat) : Char :=
  if n < 10 then Char.ofNat (48 + n) else Char.ofNat (55 + n)

/-- Go `url.QueryEscape`: keep unreserved bytes, turn a space into `+`, and
percent-escape every other byte with upper-case hex digits. -/
def queryEscape (s : String) : String :=
  String.mk ((s.toList.flatMap utf8Bytes).flatMap fun b =>
    if isUnreservedByte b then [Char.ofNat b]
    else if b == 32 then [Char.ofNat 43]
    else [Char.ofNat 37, hexDigit (b / 16), hexDigit (b % 16)])

/-- Lexicographic comparison of character lists by code point.  Go's
`sort.Strings` compares strings byte-wise; the two orders agree on the ASCII
parameter names being sorted here. -/
def charsLe : List Char → List Char → Bool
  | [], _ => true
  | _ :: _, [] => false
  | a :: as, b :: bs =>
    if a.toNat < b.toNat then true
    else if b.toNat < a.toNat then false
    else charsLe as bs

/-- String comparison as used by `sort.Strings` inside `url.Values.Encode`. -/
def strLe (a b : String) : Bool := charsLe a.toList b.toList

/-- Insert a key into an ascending list of keys. -/
def insertKey (k : String) : List String → List String
  | [] => [k]
  | x :: xs => if strLe k x then k :: x :: xs else x :: insertKey k xs

/-- Ascending sort of the key set, as `sort.Strings(keys)` produces. -/
def sortStrings : List String → List String
  | [] => []
  | x :: xs => insertKey x (sortStrings xs)

/-- `url.Values` as the sequence of `Add(key, value)` calls, in call order. -/
abbrev URLValues := List (String × String)

/-- The slice `v[key]`: the values added under `key`, in `Add` order. -/
def valuesGet (vs : URLValues) (k : String) : List String :=
  (vs.filter fun p => p.1 == k).map Prod.snd

/-- The sorted key list `url.Values.Encode` iterates over (map keys are the
distinct added keys; `sort.Strings` orders them ascending). -/
def sortedKeys (vs : URLValues) : List String :=
  sortStrings (vs.map Prod.fst).dedup

/-- Go `url.Values.Encode`: keys ascending, each key's values in `Add` order,
keys and values query-escaped, entries joined with `&`. -/
def valuesEncode (vs : URLValues) : String :=
  String.intercalate "&" ((sortedKeys vs).flatMap fun k =>
    (valuesGet vs k).map fun v => queryEscape k ++ "=" ++ queryEscape v)

/-- The contribution of one `*bool` field: `if q.F != nil \x7b
values.Add(name, strconv.FormatBool(*q.F)) \x7d`. -/
def boolEntry (k : String) (o : Option Bool) : URLValues :=
  match o with
  | some b => [(k, formatBool b)]
  | none => []

/-- The `QueryParams` record (`bigcommerce.go`), with Go's zero values as
defaults: 0 for numbers, "" for strings, nil for slices and `*bool`. -/
structure QueryParams where
  Page : Int := 0
  Limit : Int := 0
  Direction : String := ""
  «Sort» : String := ""
  Include : List String := []
  ID : List Int := []
  IDIn : List Int := []
  IDNotIn : List Int := []
  IDMin : Int := 0
  IDMax : Int := 0
  IDGreater : Int := 0
  IDLess : Int := 0
  Name : String := ""
  SKU : String := ""
  Price : Rat := 0
  PriceMin : Rat := 0
  PriceMax : Rat := 0
  Weight : Rat := 0
  WeightMin : Rat := 0
  WeightMax : Rat := 0
  Condition : String := ""
  IsVisible : Option Bool := none
  IsFeatured : Option Bool := none
  CategoryID : List Int := []
  BrandID : List Int := []
  Keywords : String := ""
  IsActive : Option Bool := none
  DateCreated : String := ""
  DateModified : String := ""
  deriving DecidableEq

/-- `QueryParams.ToValues`, translated branch for branch: each `values.Add`
call contributes one pair, in the source's call order. -/
def ToValues (q : QueryParams) : URLValues :=
  (if q.Page > 0 then [("page", itoa q.Page)] else [])
  ++ (if q.Limit > 0 then [("limit", itoa q.Limit)] else [])
  ++ (if q.Direction ≠ "" then [("direction", q.Direction)] else [])
  ++ (if q.«Sort» ≠ "" then [("sort", q.«Sort»)] else [])
  ++ q.Include.map (fun s => ("include", s))
  ++ q.ID.map (fun i => ("id", itoa i))
  ++ q.IDIn.map (fun i => ("id:in", itoa i))
  ++ q.IDNotIn.map (fun i => ("id:not_in", itoa i))
  ++ (if q.IDMin > 0 then [("id:min", itoa q.IDMin)] else [])
  ++ (if q.IDMax > 0 then [("id:max", itoa q.IDMax)] else [])
  ++ (if q.IDGreater > 0 then [("id:greater", itoa q.IDGreater)] else [])
  ++ (if q.IDLess > 0 then [("id:less", itoa q.IDLess)] else [])
  ++ (if q.Name ≠ "" then [("name", q.Name)] else [])
  ++ (if q.SKU ≠ "" then [("sku", q.SKU)] else [])
  ++ (if q.Price > 0 then [("price", formatFloat2 q.Price)] else [])
  ++ (if q.PriceMin > 0 then [("price:min", formatFloat2 q.PriceMin)] else [])
  ++ (if q.PriceMax > 0 then [("price:max", formatFloat2 q.PriceMax)] else [])
  ++ (if q.Weight > 0 then [("weight", formatFloat2 q.Weight)] else [])
  ++ (if q.WeightMin > 0 then [("weight:min", formatFloat2 q.WeightMin)] else [])
  ++ (if q.WeightMax > 0 then [("weight:max", formatFloat2 q.WeightMax)] else [])
  ++ (if q.Condition ≠ "" then [("condition", q.Condition)] else [])
  ++ boolEntry "is_visible" q.IsVisible
  ++ boolEntry "is_featured" q.IsFeatured
  ++ q.CategoryID.map (fun i => ("categories", itoa i))
  ++ q.BrandID.map (fun i => ("brand_id", itoa i))
  ++ (if q.Keywords ≠ "" then [("keyword", q.Keywords)] else [])
  ++ boolEntry "is_active" q.IsActive
  ++ (if q.DateCreated ≠ "" then [("date_created", q.DateCreated)] else [])
  ++ (if q.DateModified ≠ "" then [("date_modified", q.DateModified)] else [])

/-- The entries of an encoding under one parameter name. -/
def keyEntries (q : QueryParams) (k : String) : URLValues :=
  (ToValues q).filter fun p => p.1 == k

/-- The query built by `InventoryService.ListContext`: one `id:in` entry per
product identifier, in input order (the source first collects them in a
single-key map and then `Add`s them into the request's query in that order). -/
def inventoryListValues (productIDs : List Int) : URLValues :=
  productIDs.map fun id => ("id:in", itoa id)

/-- Whether a string contains an ASCII control byte. -/
def containsCTLByte (s : String) : Bool :=
  s.toList.any fun c => c.toNat < 32 || c.toNat == 127

/-- Go `url.Parse`, modelled on the URL strings this library builds from its
string inputs: a raw control character makes parsing fail (Go's
`net/url: invalid control character in URL`); any other such string parses,
and the parsed URL is kept as its text. -/
def urlParse (s : String) : Except String String :=
  if containsCTLByte s then .error "net/url: invalid control character in URL"
  else .ok s

def defaultBaseURL : String := "https://api.bigcommerce.com/stores/"

def apiVersion : String := "v3"

def userAgent : String := "bigcommerce-go-sdk/1.0"

/-- The `Client` fields `Do`/`NewRequest` consult.  The ~20 service records
hold only a pointer back to the client and are not modelled separately. -/
structure GoClient where
  baseURL : Option String
  storeHash : String
  authToken : String
  userAgent : String
  deriving DecidableEq

/-- `NewClient`: the source discards the `url.Parse` error with the blank
identifier (`baseURL, _ := url.Parse(...)`), so on a parse failure the client
is still returned, with a nil `baseURL`, and no error reaches the caller. -/
def NewClient (storeHash authToken : String) : GoClient :=
  { baseURL := (urlParse (defaultBaseURL ++ storeHash ++ "/" ++ apiVersion ++ "/")).toOption
    storeHash := storeHash
    authToken := authToken
    userAgent := userAgent }

instance {ε α : Type} [DecidableEq ε] [DecidableEq α] : DecidableEq (Except ε α) := fun x y =>
  match x, y with
  | .error a, .error b =>
    if h : a = b then isTrue (by rw [h]) else isFalse (by simp [h])
  | .error _, .ok _ => isFalse (by simp)
  | .ok _, .error _ => isFalse (by simp)
  | .ok a, .ok b =>
    if h : a = b then isTrue (by rw [h]) else isFalse (by simp [h])

/-- The parts of `http.Response` that `Do`/`CheckResponse` consult: the status
code, the originating request's method and URL (`r.Request`), and the outcome
of reading the body: a read error, or the body bytes as a string. -/
structure GoResponse where
  method : String
  url : String
  statusCode : Int
  body : Except String String
  deriving DecidableEq

/-- The `ErrorResponse` record with its JSON-tagged fields (`status`, `title`,
`type`, `errors`) at Go zero values, plus the response it was built from. -/
structure ErrorResponse where
  response : GoResponse
  status : Int := 0
  title : String := ""
  type : String := ""
  errors : List String := []
  deriving DecidableEq

/-- The `error` values the library returns, tagged by origin: URL parsing,
request-body encoding, request construction, the transport, body reads, JSON
decoding, and the API's own `ErrorResponse`. -/
inductive GoError where
  | urlErr (msg : String)
  | encodingErr (msg : String)
  | httpErr (msg : String)
  | transportErr (msg : String)
  | readErr (msg : String)
  | jsonErr (msg : String)
  | errResp (e : ErrorResponse)
  deriving DecidableEq

/-- A character of an HTTP method token (`net/http`'s `validMethod` table):
alphanumerics and the codes of `!#$%&'*+-.^_` (96 is the backquote) `|~`. -/
def isTokenChar (c : Char) : Bool :=
  c.isAlphanum ||
    [33, 35, 36, 37, 38, 39, 42, 43, 45, 46, 94, 95, 96, 124, 126].contains c.toNat

/-- `net/http`'s method validation in `NewRequestWithContext`. -/
def validMethod (m : String) : Bool :=
  m != "" && m.toList.all isTokenChar

/-- The `interface\x7b\x7d` body handed to `NewRequest`, seen through
`json.Marshal`: nil, a value that marshals to the given JSON text, or a value
the marshaller rejects with the given error. -/
inductive GoBody where
  | noBody
  | encodable (json : String)
  | unencodable (msg : String)

/-- The request `NewRequest` builds. -/
structure GoRequest where
  method : String
  url : String
  headers : List (String × String)
  body : Option String
  deriving DecidableEq

/-- The outcome of `Client.NewRequest`: a request, a returned error, or a
runtime panic (which returns nothing to the caller). -/
inductive ReqResult where
  | ok (req : GoRequest)
  | err (e : GoError)
  | panics (msg : String)
  deriving DecidableEq

/-- `Client.NewRequest`: parse the relative URL (returning its error), then
resolve it against the base URL — this happens before body encoding, and on a
nil `baseURL` (possible after a failed `NewClient` parse) the
`ResolveReference` call dereferences a nil pointer and panics — then
JSON-encode a non-nil body (returning the encoder's error;
`json.Encoder.Encode` appends a newline), build the request (Go rejects an
invalid method), and set the four fixed headers.  For the relative resource
paths this library passes (no scheme, no leading slash) against a base ending
in `/`, the resolved URL is base ++ rel. -/
def NewRequest (c : GoClient) (method urlStr : String) (body : GoBody) : ReqResult :=
  match urlParse urlStr with
  | .error e => .err (.urlErr e)
  | .ok rel =>
    match c.baseURL with
    | none => .panics "runtime error: invalid memory address or nil pointer dereference"
    | some base =>
      match body with
      | .unencodable msg => .err (.encodingErr msg)
      | b =>
        if validMethod method then
          .ok { method := method
                url := base ++ rel
                headers := [("X-Auth-Token", c.authToken), ("User-Agent", c.userAgent),
                            ("Content-Type", "application/json"), ("Accept", "application/json")]
                body := match b with
                        | .encodable j => some (j ++ "\n")
                        | _ => none }
        else .err (.httpErr ("net/http: invalid method " ++ method))

/-- A JSON value, as `encoding/json` parses it. -/
inductive JValue where
  | jnull
  | jbool (b : Bool)
  | jnum (n : Int)
  | jstr (s : String)
  | jarr (elems : List JValue)
  | jobj (fields : List (String × JValue))

/-- The character denoted by a single-character JSON escape, if valid
(codes 34 `"` 92 backslash 47 `/` and b f n r t). -/
def escapeChar (c : Char) : Option Char :=
  if c.toNat == 34 || c.toNat == 92 || c.toNat == 47 then some c
  else if c.toNat == 98 then some (Char.ofNat 8)
  else if c.toNat == 102 then some (Char.ofNat 12)
  else if c.toNat == 110 then some (Char.ofNat 10)
  else if c.toNat == 114 then some (Char.ofNat 13)
  else if c.toNat == 116 then some (Char.ofNat 9)
  else none

/-- Value of a hexadecimal digit character. -/
def hexVal (c : Char) : Option Nat :=
  if 48 ≤ c.toNat && c.toNat ≤ 57 then some (c.toNat - 48)
  else if 65 ≤ c.toNat && c.toNat ≤ 70 then some (c.toNat - 55)
  else if 97 ≤ c.toNat && c.toNat ≤ 102 then some (c.toNat - 87)
  else none

/-- Skip JSON whitespace (space, tab, newline, carriage return). -/
def skipWs : List Char → List Char
  | c :: cs =>
    if c.toNat = 32 ∨ c.toNat = 9 ∨ c.toNat = 10 ∨ c.toNat = 13 then skipWs cs
    else c :: cs
  | [] => []

/-- The body of a JSON string literal after the opening quote: everything up
to the closing quote with escapes decoded (a `\uXXXX` escape denotes its code
point directly; surrogate pairs are not recombined). -/
def parseStringLit : List Char → Except String (String × List Char)
  | [] => .error "unexpected end of JSON input"
  | c :: cs =>
    if c.toNat = 34 then .ok ("", cs)
    else if c.toNat = 92 then
      match cs with
      | [] => .error "unexpected end of JSON input"
      | e :: cs2 =>
        match escapeChar e with
        | some ec =>
          match parseStringLit cs2 with
          | .ok (s, r) => .ok (String.mk (ec :: s.toList), r)
          | .error msg => .error msg
        | none =>
          if e.toNat = 117 then
            match cs2 with
            | h1 :: h2 :: h3 :: h4 :: cs3 =>
              match hexVal h1, hexVal h2, hexVal h3, hexVal h4 with
              | some a, some b, some c2, some d =>
                match parseStringLit cs3 with
                | .ok (s, r) =>
                  .ok (String.mk (Char.ofNat (4096 * a + 256 * b + 16 * c2 + d) :: s.toList), r)
                | .error msg => .error msg
              | _, _, _, _ => .error "invalid hexadecimal escape"
            | _ => .error "unexpected end of JSON input"
          else .error "invalid escape code"
    else
      match parseStringLit cs with
      | .ok (s, r) => .ok (String.mk (c :: s.toList), r)
      | .error msg => .error msg

/-- Accumulate decimal digits. -/
def digitsVal (acc : Nat) : List Char → Nat × List Char
  | c :: cs =>
    if 48 ≤ c.toNat && c.toNat ≤ 57 then digitsVal (10 * acc + (c.toNat - 48)) cs
    else (acc, c :: cs)
  | [] => (acc, [])

/-- Reject the fraction/exponent continuations the model does not support
(Go would parse them and then fail to fit the value into the `int` field). -/
def checkNumTail (n : Int) (r : List Char) : Except String (Int × List Char) :=
  match r with
  | c :: _ =>
    if c.toNat = 46 || c.toNat = 101 || c.toNat = 69 then
      .error "unsupported number syntax"
    else .ok (n, r)
  | [] => .ok (n, r)

/-- A JSON number literal, restricted to the integer syntax the error
envelopes use. -/
def parseIntLit (cs : List Char) : Except String (Int × List Char) :=
  match cs with
  | c :: rest =>
    if c.toNat = 45 then
      match rest with
      | d :: _ =>
        if 48 ≤ d.toNat && d.toNat ≤ 57 then
          let p := digitsVal 0 rest
          checkNumTail (-(p.1 : Int)) p.2
        else .error "invalid number literal"
      | [] => .error "unexpected end of JSON input"
    else if 48 ≤ c.toNat && c.toNat ≤ 57 then
      let p := digitsVal 0 cs
      checkNumTail (p.1 : Int) p.2
    else .error "invalid number literal"
  | [] => .error "unexpected end of JSON input"

/-- Parser modes: one value, the remaining elements of a non-empty array, or
the remaining members of a non-empty object. -/
inductive PMode where
  | val
  | arrElems
  | objMembers

/-- Parser results, one constructor per mode. -/
inductive PResult where
  | val (v : JValue)
  | arr (vs : List JValue)
  | obj (kvs : List (String × JValue))

/-- The recursive core of the JSON syntax `json.Unmarshal` accepts.  Fuel
bounds the recursion; `jsonParse` supplies more than any input can consume.
Character codes: 123/125 braces, 91/93 brackets, 34 quote, 44 comma, 58 colon. -/
def parseCore : Nat → PMode → List Char → Except String (PResult × List Char)
  | 0, _, _ => .error "exceeded max nesting depth"
  | Nat.succ fuel, .val, cs =>
    match skipWs cs with
    | [] => .error "unexpected end of JSON input"
    | c :: rest =>
      if c.toNat = 123 then
        match skipWs rest with
        | c2 :: rest2 =>
          if c2.toNat = 125 then .ok (.val (.jobj []), rest2)
          else
            match parseCore fuel .objMembers (c2 :: rest2) with
            | .ok (.obj kvs, r) => .ok (.val (.jobj kvs), r)
            | .ok _ => .error "invalid parser state"
            | .error e => .error e
        | [] => .error "unexpected end of JSON input"
      else if c.toNat = 91 then
        match skipWs rest with
        | c2 :: rest2 =>
          if c2.toNat = 93 then .ok (.val (.jarr []), rest2)
          else
            match parseCore fuel .arrElems (c2 :: rest2) with
            | .ok (.arr vs, r) => .ok (.val (.jarr vs), r)
            | .ok _ => .error "invalid parser state"
            | .error e => .error e
        | [] => .error "unexpected end of JSON input"
      else if c.toNat = 34 then
        match parseStringLit rest with
        | .ok (s, r) => .ok (.val (.jstr s), r)
        | .error e => .error e
      else if c.toNat = 116 then
        match rest with
        | 'r' :: 'u' :: 'e' :: r => .ok (.val (.jbool true), r)
        | _ => .error "invalid literal"
      else if c.toNat = 102 then
        match rest with
        | 'a' :: 'l' :: 's' :: 'e' :: r => .ok (.val (.jbool false), r)
        | _ => .error "invalid literal"
      else if c.toNat = 110 then
        match rest with
        | 'u' :: 'l' :: 'l' :: r => .ok (.val .jnull, r)
        | _ => .error "invalid literal"
      else
        match parseIntLit (c :: rest) with
        | .ok (n, r) => .ok (.val (.jnum n), r)
        | .error e => .error e
  | Nat.succ fuel, .arrElems, cs =>
    match parseCore fuel .val cs with
    | .ok (.val v, r) =>
      (match skipWs r with
       | c :: rest =>
         if c.toNat = 44 then
           match parseCore fuel .arrElems rest with
           | .ok (.arr vs, r2) => .ok (.arr (v :: vs), r2)
           | .ok _ => .error "invalid parser state"
           | .error e => .error e
         else if c.toNat = 93 then .ok (.arr [v], rest)
         else .error "invalid character in array"
       | [] => .error "unexpected end of JSON input")
    | .ok _ => .error "invalid parser state"
    | .error e => .error e
  | Nat.succ fuel, .objMembers, cs =>
    match skipWs cs with
    | c :: rest =>
      if c.toNat = 34 then
        match parseStringLit rest with
        | .ok (k, r) =>
          (match skipWs r with
           | c2 :: rest2 =>
             if c2.toNat = 58 then
               match parseCore fuel .val rest2 with
               | .ok (.val v, r2) =>
                 (match skipWs r2 with
                  | c3 :: rest3 =>
                    if c3.toNat = 44 then
                      match parseCore fuel .objMembers rest3 with
                      | .ok (.obj kvs, r3) => .ok (.obj ((k, v) :: kvs), r3)
                      | .ok _ => .error "invalid parser state"
                      | .error e => .error e
                    else if c3.toNat = 125 then .ok (.obj [(k, v)], rest3)
                    else .error "invalid character in object"
                  | [] => .error "unexpected end of JSON input")
               | .ok _ => .error "invalid parser state"
               | .error e => .error e
             else .error "invalid character in object"
           | [] => .error "unexpected end of JSON input")
        | .error e => .error e
      else .error "invalid character in object"
    | [] => .error "unexpected end of JSON input"

/-- The syntax phase of `json.Unmarshal`: parse one JSON value and require
only whitespace after it. -/
def jsonParse (s : String) : Except String JValue :=
  match parseCore (2 * s.length + 2) .val s.toList with
  | .error e => .error e
  | .ok (.val v, r) =>
    if (skipWs r).isEmpty then .ok v else .error "invalid character after top-level value"
  | .ok _ => .error "invalid parser state"

/-- Decode a JSON array into `[]string`: every element must be a string
(a JSON null leaves that element's zero value ""). -/
def decodeStrings : List JValue → Except String (List String)
  | [] => .ok []
  | .jstr s :: rest =>
    match decodeStrings rest with
    | .ok l => .ok (s :: l)
    | .error e => .error e
  | .jnull :: rest =>
    match decodeStrings rest with
    | .ok l => .ok ("" :: l)
    | .error e => .error e
  | _ :: _ => .error "json: cannot unmarshal value into field of type []string"

/-- Assign one decoded object member to the matching tagged field of
`ErrorResponse` (tags `status`, `title`, `type`, `errors`): unknown keys are
ignored, a JSON null leaves a scalar field untouched and nils the slice, and a
type mismatch is an unmarshalling error. -/
def setStatus (er : ErrorResponse) (v : JValue) : Except String ErrorResponse :=
  match v with
  | .jnum n => .ok { er with status := n }
  | .jnull => .ok er
  | _ => .error "json: cannot unmarshal value into field status of type int"

def setTitle (er : ErrorResponse) (v : JValue) : Except String ErrorResponse :=
  match v with
  | .jstr s => .ok { er with title := s }
  | .jnull => .ok er
  | _ => .error "json: cannot unmarshal value into field title of type string"

def setType (er : ErrorResponse) (v : JValue) : Except String ErrorResponse :=
  match v with
  | .jstr s => .ok { er with type := s }
  | .jnull => .ok er
  | _ => .error "json: cannot unmarshal value into field type of type string"

def setErrors (er : ErrorResponse) (v : JValue) : Except String ErrorResponse :=
  match v with
  | .jarr xs =>
    match decodeStrings xs with
    | .ok l => .ok { er with errors := l }
    | .error e => .error e
  | .jnull => .ok { er with errors := [] }
  | _ => .error "json: cannot unmarshal value into field errors of type []string"

def setField (er : ErrorResponse) (k : String) (v : JValue) : Except String ErrorResponse :=
  if k = "status" then setStatus er v
  else if k = "title" then setTitle er v
  else if k = "type" then setType er v
  else if k = "errors" then setErrors er v
  else .ok er

/-- Assign the decoded object members in order. -/
def applyFields (er : ErrorResponse) : List (String × JValue) → Except String ErrorResponse
  | [] => .ok er
  | (k, v) :: rest =>
    match setField er k v with
    | .ok er2 => applyFields er2 rest
    | .error e => .error e

/-- `json.Unmarshal(data, errorResponse)`: parse the bytes, require a JSON
object (null is a no-op), and assign the members in order into the existing
record.  (Go keeps decoding past a field type mismatch and reports the first
such error at the end; since `CheckResponse` only propagates that error,
aborting at the first mismatch is observationally the same here.) -/
def unmarshalErrorResponse (data : String) (er : ErrorResponse) : Except String ErrorResponse :=
  match jsonParse data with
  | .error e => .error e
  | .ok .jnull => .ok er
  | .ok (.jobj kvs) => applyFields er kvs
  | .ok _ => .error "json: cannot unmarshal value into ErrorResponse"

/-- `CheckResponse`: nil for a status in [200,299]; otherwise build an
`ErrorResponse` holding the response, read the body (a failed read or an empty
body leaves the record's zero fields), decode a non-empty body into it
(a decode failure is returned instead), and return the record as the error. -/
def CheckResponse (r : GoResponse) : Option GoError :=
  if 200 ≤ r.statusCode ∧ r.statusCode ≤ 299 then none
  else
    match r.body with
    | .error _ => some (.errResp { response := r })
    | .ok data =>
      if 0 < data.length then
        match unmarshalErrorResponse data { response := r } with
        | .error e => some (.jsonErr e)
        | .ok er => some (.errResp er)
      else some (.errResp { response := r })

/-- The output argument `v` of `Client.Do`: nil, an `io.Writer` receiving the
raw bytes, or any other non-nil value receiving the JSON decoding. -/
inductive DoTarget where
  | noTarget
  | writer
  | jsonTarget

/-- `Client.Do`: the network exchange's outcome is the `send` argument (the
transport's error, or a response).  A transport error returns `(nil, err)`; a
`CheckResponse` error returns `(resp, err)`; otherwise the body is copied
verbatim to an `io.Writer` target, JSON-decoded into any other non-nil target
(succeeding iff the body reads and parses), or discarded when `v` is nil.
Every error is the returned value; nothing is logged or dropped. -/
def clientDo (send : Except String GoResponse) (v : DoTarget) :
    Option GoResponse × Option GoError :=
  match send with
  | .error e => (none, some (.transportErr e))
  | .ok resp =>
    match CheckResponse resp with
    | some err => (some resp, some err)
    | none =>
      match v with
      | .noTarget => (some resp, none)
      | .writer =>
        match resp.body with
        | .error e => (some resp, some (.readErr e))
        | .ok _ => (some resp, none)
      | .jsonTarget =>
        match resp.body with
        | .error e => (some resp, some (.readErr e))
        | .ok data =>
          match jsonParse data with
          | .error e => (some resp, some (.jsonErr e))
          | .ok _ => (some resp, none)

/-! ### Lemmas: single-key characterization of `ToValues` -/

theorem filter_if_ne (k K : String) {c : Prop} [Decidable c] {v : String}
    (h : (k == K) = false) :
    (if c then [(k, v)] else []).filter (fun p => p.1 == K) = [] := by
  split <;> simp [List.filter, h]

theorem filter_if_eq (K : String) {c : Prop} [Decidable c] {v : String} :
    (if c then [(K, v)] else []).filter (fun p => p.1 == K) =
      if c then [(K, v)] else [] := by
  split <;> simp [List.filter]

theorem filter_ite_ne (k K : String) {c : Prop} [Decidable c] {v : String}
    (h : (k == K) = false) :
    (if c then [] else [(k, v)]).filter (fun p => p.1 == K) = [] := by
  split <;> simp [List.filter, h]

theorem filter_ite_eq (K : String) {c : Prop} [Decidable c] {v : String} :
    (if c then [] else [(K, v)]).filter (fun p => p.1 == K) =
      if c then [] else [(K, v)] := by
  split <;> simp [List.filter]

theorem filter_map_ne {α : Type} (k K : String) (g : α → String) (xs : List α)
    (h : (k == K) = false) :
    (xs.map fun x => (k, g x)).filter (fun p => p.1 == K) = [] := by
  induction xs with
  | nil => rfl
  | cons a as ih => simp [List.filter, h, ih]

theorem filter_map_eq {α : Type} (K : String) (g : α → String) (xs : List α) :
    (xs.map fun x => (K, g x)).filter (fun p => p.1 == K) = xs.map fun x => (K, g x) := by
  induction xs with
  | nil => rfl
  | cons a as ih => simp [List.filter, ih]

theorem filter_mapid_ne (k K : String) (xs : List String) (h : (k == K) = false) :
    (xs.map fun s => (k, s)).filter (fun p => p.1 == K) = [] := by
  induction xs with
  | nil => rfl
  | cons a as ih => simp [List.filter, h, ih]

theorem filter_mapid_eq (K : String) (xs : List String) :
    (xs.map fun s => (K, s)).filter (fun p => p.1 == K) = xs.map fun s => (K, s) := by
  induction xs with
  | nil => rfl
  | cons a as ih => simp [List.filter, ih]

theorem filter_bool_ne (k K : String) (h : (k == K) = false) (o : Option Bool) :
    (boolEntry k o).filter (fun p => p.1 == K) = [] := by
  cases o <;> simp [boolEntry, List.filter, h]

theorem filter_bool_eq (K : String) (o : Option Bool) :
    (boolEntry K o).filter (fun p => p.1 == K) = boolEntry K o := by
  cases o <;> simp [boolEntry, List.filter]

theorem keyEntries_page (q : QueryParams) :
    keyEntries q "page" = if q.Page > 0 then [("page", itoa q.Page)] else [] := by
  simp [keyEntries, ToValues, List.filter_append, filter_if_ne, filter_if_eq,
    filter_ite_ne, filter_ite_eq, filter_map_ne, filter_map_eq, filter_mapid_ne,
    filter_mapid_eq, filter_bool_ne, filter_bool_eq]

theorem keyEntries_limit (q : QueryParams) :
    keyEntries q "limit" = if q.Limit > 0 then [("limit", itoa q.Limit)] else [] := by
  simp [keyEntries, ToValues, List.filter_append, filter_if_ne, filter_if_eq,
    filter_ite_ne, filter_ite_eq, filter_map_ne, filter_map_eq, filter_mapid_ne,
    filter_mapid_eq, filter_bool_ne, filter_bool_eq]

theorem keyEntries_direction (q : QueryParams) :
    keyEntries q "direction" =
      if q.Direction = "" then [] else [("direction", q.Direction)] := by
  simp [keyEntries, ToValues, List.filter_append, filter_if_ne, filter_if_eq,
    filter_ite_ne, filter_ite_eq, filter_map_ne, filter_map_eq, filter_mapid_ne,
    filter_mapid_eq, filter_bool_ne, filter_bool_eq]

theorem keyEntries_sort (q : QueryParams) :
    keyEntries q "sort" = if q.«Sort» = "" then [] else [("sort", q.«Sort»)] := by
  simp [keyEntries, ToValues, List.filter_append, filter_if_ne, filter_if_eq,
    filter_ite_ne, filter_ite_eq, filter_map_ne, filter_map_eq, filter_mapid_ne,
    filter_mapid_eq, filter_bool_ne, filter_bool_eq]

theorem keyEntries_include (q : QueryParams) :
    keyEntries q "include" = q.Include.map fun s => ("include", s) := by
  simp [keyEntries, ToValues, List.filter_append, filter_if_ne, filter_if_eq,
    filter_ite_ne, filter_ite_eq, filter_map_ne, filter_map_eq, filter_mapid_ne,
    filter_mapid_eq, filter_bool_ne, filter_bool_eq]

theorem keyEntries_id (q : QueryParams) :
    keyEntries q "id" = q.ID.map fun i => ("id", itoa i) := by
  simp [keyEntries, ToValues, List.filter_append, filter_if_ne, filter_if_eq,
    filter_ite_ne, filter_ite_eq, filter_map_ne, filter_map_eq, filter_mapid_ne,
    filter_mapid_eq, filter_bool_ne, filter_bool_eq]

theorem keyEntries_idIn (q : QueryParams) :
    keyEntries q "id:in" = q.IDIn.map fun i => ("id:in", itoa i) := by
  simp [keyEntries, ToValues, List.filter_append, filter_if_ne, filter_if_eq,
    filter_ite_ne, filter_ite_eq, filter_map_ne, filter_map_eq, filter_mapid_ne,
    filter_mapid_eq, filter_bool_ne, filter_bool_eq]

theorem keyEntries_idNotIn (q : QueryParams) :
    keyEntries q "id:not_in" = q.IDNotIn.map fun i => ("id:not_in", itoa i) := by
  simp [keyEntries, ToValues, List.filter_append, filter_if_ne, filter_if_eq,
    filter_ite_ne, filter_ite_eq, filter_map_ne, filter_map_eq, filter_mapid_ne,
    filter_mapid_eq, filter_bool_ne, filter_bool_eq]

theorem keyEntries_idMin (q : QueryParams) :
    keyEntries q "id:min" = if q.IDMin > 0 then [("id:min", itoa q.IDMin)] else [] := by
  simp [keyEntries, ToValues, List.filter_append, filter_if_ne, filter_if_eq,
    filter_ite_ne, filter_ite_eq, filter_map_ne, filter_map_eq, filter_mapid_ne,
    filter_mapid_eq, filter_bool_ne, filter_bool_eq]

theorem keyEntries_idMax (q : QueryParams) :
    keyEntries q "id:max" = if q.IDMax > 0 then [("id:max", itoa q.IDMax)] else [] := by
  simp [keyEntries, ToValues, List.filter_append, filter_if_ne, filter_if_eq,
    filter_ite_ne, filter_ite_eq, filter_map_ne, filter_map_eq, filter_mapid_ne,
    filter_mapid_eq, filter_bool_ne, filter_bool_eq]

theorem keyEntries_idGreater (q : QueryParams) :
    keyEntries q "id:greater" =
      if q.IDGreater > 0 then [("id:greater", itoa q.IDGreater)] else [] := by
  simp [keyEntries, ToValues, List.filter_append, filter_if_ne, filter_if_eq,
    filter_ite_ne, filter_ite_eq, filter_map_ne, filter_map_eq, filter_mapid_ne,
    filter_mapid_eq, filter_bool_ne, filter_bool_eq]

theorem keyEntries_idLess (q : QueryParams) :
    keyEntries q "id:less" = if q.IDLess > 0 then [("id:less", itoa q.IDLess)] else [] := by
  simp [keyEntries, ToValues, List.filter_append, filter_if_ne, filter_if_eq,
    filter_ite_ne, filter_ite_eq, filter_map_ne, filter_map_eq, filter_mapid_ne,
    filter_mapid_eq, filter_bool_ne, filter_bool_eq]

theorem keyEntries_name (q : QueryParams) :
    keyEntries q "name" = if q.Name = "" then [] else [("name", q.Name)] := by
  simp [keyEntries, ToValues, List.filter_append, filter_if_ne, filter_if_eq,
    filter_ite_ne, filter_ite_eq, filter_map_ne, filter_map_eq, filter_mapid_ne,
    filter_mapid_eq, filter_bool_ne, filter_bool_eq]

theorem keyEntries_sku (q : QueryParams) :
    keyEntries q "sku" = if q.SKU = "" then [] else [("sku", q.SKU)] := by
  simp [keyEntries, ToValues, List.filter_append, filter_if_ne, filter_if_eq,
    filter_ite_ne, filter_ite_eq, filter_map_ne, filter_map_eq, filter_mapid_ne,
    filter_mapid_eq, filter_bool_ne, filter_bool_eq]

theorem keyEntries_price (q : QueryParams) :
    keyEntries q "price" = if q.Price > 0 then [("price", formatFloat2 q.Price)] else [] := by
  simp [keyEntries, ToValues, List.filter_append, filter_if_ne, filter_if_eq,
    filter_ite_ne, filter_ite_eq, filter_map_ne, filter_map_eq, filter_mapid_ne,
    filter_mapid_eq, filter_bool_ne, filter_bool_eq]

theorem keyEntries_priceMin (q : QueryParams) :
    keyEntries q "price:min" =
      if q.PriceMin > 0 then [("price:min", formatFloat2 q.PriceMin)] else [] := by
  simp [keyEntries, ToValues, List.filter_append, filter_if_ne, filter_if_eq,
    filter_ite_ne, filter_ite_eq, filter_map_ne, filter_map_eq, filter_mapid_ne,
    filter_mapid_eq, filter_bool_ne, filter_bool_eq]

theorem keyEntries_priceMax (q : QueryParams) :
    keyEntries q "price:max" =
      if q.PriceMax > 0 then [("price:max", formatFloat2 q.PriceMax)] else [] := by
  simp [keyEntries, ToValues, List.filter_append, filter_if_ne, filter_if_eq,
    filter_ite_ne, filter_ite_eq, filter_map_ne, filter_map_eq, filter_mapid_ne,
    filter_mapid_eq, filter_bool_ne, filter_bool_eq]

theorem keyEntries_weight (q : QueryParams) :
    keyEntries q "weight" =
      if q.Weight > 0 then [("weight", formatFloat2 q.Weight)] else [] := by
  simp [keyEntries, ToValues, List.filter_append, filter_if_ne, filter_if_eq,
    filter_ite_ne, filter_ite_eq, filter_map_ne, filter_map_eq, filter_mapid_ne,
    filter_mapid_eq, filter_bool_ne, filter_bool_eq]

theorem keyEntries_weightMin (q : QueryParams) :
    keyEntries q "weight:min" =
      if q.WeightMin > 0 then [("weight:min", formatFloat2 q.WeightMin)] else [] := by
  simp [keyEntries, ToValues, List.filter_append, filter_if_ne, filter_if_eq,
    filter_ite_ne, filter_ite_eq, filter_map_ne, filter_map_eq, filter_mapid_ne,
    filter_mapid_eq, filter_bool_ne, filter_bool_eq]

theorem keyEntries_weightMax (q : QueryParams) :
    keyEntries q "weight:max" =
      if q.WeightMax > 0 then [("weight:max", formatFloat2 q.WeightMax)] else [] := by
  simp [keyEntries, ToValues, List.filter_append, filter_if_ne, filter_if_eq,
    filter_ite_ne, filter_ite_eq, filter_map_ne, filter_map_eq, filter_mapid_ne,
    filter_mapid_eq, filter_bool_ne, filter_bool_eq]

theorem keyEntries_condition (q : QueryParams) :
    keyEntries q "condition" =
      if q.Condition = "" then [] else [("condition", q.Condition)] := by
  simp [keyEntries, ToValues, List.filter_append, filter_if_ne, filter_if_eq,
    filter_ite_ne, filter_ite_eq, filter_map_ne, filter_map_eq, filter_mapid_ne,
    filter_mapid_eq, filter_bool_ne, filter_bool_eq]

theorem keyEntries_isVisible (q : QueryParams) :
    keyEntries q "is_visible" = boolEntry "is_visible" q.IsVisible := by
  simp [keyEntries, ToValues, List.filter_append, filter_if_ne, filter_if_eq,
    filter_ite_ne, filter_ite_eq, filter_map_ne, filter_map_eq, filter_mapid_ne,
    filter_mapid_eq, filter_bool_ne, filter_bool_eq]

theorem keyEntries_isFeatured (q : QueryParams) :
    keyEntries q "is_featured" = boolEntry "is_featured" q.IsFeatured := by
  simp [keyEntries, ToValues, List.filter_append, filter_if_ne, filter_if_eq,
    filter_ite_ne, filter_ite_eq, filter_map_ne, filter_map_eq, filter_mapid_ne,
    filter_mapid_eq, filter_bool_ne, filter_bool_eq]

theorem keyEntries_categories (q : QueryParams) :
    keyEntries q "categories" = q.CategoryID.map fun i => ("categories", itoa i) := by
  simp [keyEntries, ToValues, List.filter_append, filter_if_ne, filter_if_eq,
    filter_ite_ne, filter_ite_eq, filter_map_ne, filter_map_eq, filter_mapid_ne,
    filter_mapid_eq, filter_bool_ne, filter_bool_eq]

theorem keyEntries_brandId (q : QueryParams) :
    keyEntries q "brand_id" = q.BrandID.map fun i => ("brand_id", itoa i) := by
  simp [keyEntries, ToValues, List.filter_append, filter_if_ne, filter_if_eq,
    filter_ite_ne, filter_ite_eq, filter_map_ne, filter_map_eq, filter_mapid_ne,
    filter_mapid_eq, filter_bool_ne, filter_bool_eq]

theorem keyEntries_keyword (q : QueryParams) :
    keyEntries q "keyword" = if q.Keywords = "" then [] else [("keyword", q.Keywords)] := by
  simp [keyEntries, ToValues, List.filter_append, filter_if_ne, filter_if_eq,
    filter_ite_ne, filter_ite_eq, filter_map_ne, filter_map_eq, filter_mapid_ne,
    filter_mapid_eq, filter_bool_ne, filter_bool_eq]

theorem keyEntries_isActive (q : QueryParams) :
    keyEntries q "is_active" = boolEntry "is_active" q.IsActive := by
  simp [keyEntries, ToValues, List.filter_append, filter_if_ne, filter_if_eq,
    filter_ite_ne, filter_ite_eq, filter_map_ne, filter_map_eq, filter_mapid_ne,
    filter_mapid_eq, filter_bool_ne, filter_bool_eq]

theorem keyEntries_dateCreated (q : QueryParams) :
    keyEntries q "date_created" =
      if q.DateCreated = "" then [] else [("date_created", q.DateCreated)] := by
  simp [keyEntries, ToValues, List.filter_append, filter_if_ne, filter_if_eq,
    filter_ite_ne, filter_ite_eq, filter_map_ne, filter_map_eq, filter_mapid_ne,
    filter_mapid_eq, filter_bool_ne, filter_bool_eq]

theorem keyEntries_dateModified (q : QueryParams) :
    keyEntries q "date_modified" =
      if q.DateModified = "" then [] else [("date_modified", q.DateModified)] := by
  simp [keyEntries, ToValues, List.filter_append, filter_if_ne, filter_if_eq,
    filter_ite_ne, filter_ite_eq, filter_map_ne, filter_map_eq, filter_mapid_ne,
    filter_mapid_eq, filter_bool_ne, filter_bool_eq]

/-! ### Lemmas: the key order produced by `url.Values.Encode` -/

theorem charsLe_total (a : List Char) : ∀ b, charsLe a b = true ∨ charsLe b a = true := by
  induction a with
  | nil => intro b; left; rfl
  | cons x xs ih =>
    intro b
    cases b with
    | nil => right; rfl
    | cons y ys =>
      rcases Nat.lt_trichotomy x.toNat y.toNat with h | h | h
      · left; simp [charsLe, h]
      · rcases ih ys with h2 | h2
        · left; simp [charsLe, h, h2]
        · right; simp [charsLe, h.symm, h2]
      · right; simp [charsLe, h]

theorem charsLe_trans {a : List Char} : ∀ {b c : List Char},
    charsLe a b = true → charsLe b c = true → charsLe a c = true := by
  induction a with
  | nil => intro b c _ _; rfl
  | cons x xs ih =>
    intro b c h1 h2
    cases b with
    | nil => simp [charsLe] at h1
    | cons y ys =>
      cases c with
      | nil => simp [charsLe] at h2
      | cons z zs =>
        simp only [charsLe] at h1 h2 ⊢
        rcases Nat.lt_trichotomy x.toNat y.toNat with hxy | hxy | hxy
        · rcases Nat.lt_trichotomy y.toNat z.toNat with hyz | hyz | hyz
          · simp [show x.toNat < z.toNat by omega]
          · simp [show x.toNat < z.toNat by omega]
          · simp [show ¬ y.toNat < z.toNat by omega, hyz] at h2
        · rcases Nat.lt_trichotomy y.toNat z.toNat with hyz | hyz | hyz
          · simp [show x.toNat < z.toNat by omega]
          · simp only [show ¬ x.toNat < y.toNat by omega, if_false,
              show ¬ y.toNat < x.toNat by omega] at h1
            simp only [show ¬ y.toNat < z.toNat by omega, if_false,
              show ¬ z.toNat < y.toNat by omega] at h2
            simp only [show ¬ x.toNat < z.toNat by omega, if_false,
              show ¬ z.toNat < x.toNat by omega]
            exact ih h1 h2
          · simp [show ¬ y.toNat < z.toNat by omega, hyz] at h2
        · simp [show ¬ x.toNat < y.toNat by omega, hxy] at h1

theorem strLe_total (a b : String) : strLe a b = true ∨ strLe b a = true :=
  charsLe_total a.toList b.toList

theorem strLe_trans {a b c : String} (h1 : strLe a b = true) (h2 : strLe b c = true) :
    strLe a c = true :=
  charsLe_trans h1 h2

theorem mem_insertKey {y k : String} : ∀ {l : List String},
    y ∈ insertKey k l ↔ y = k ∨ y ∈ l := by
  intro l
  induction l with
  | nil => simp [insertKey]
  | cons x xs ih =>
    simp only [insertKey]
    split
    · simp [List.mem_cons]
    · simp only [List.mem_cons, ih]
      tauto

theorem pairwise_insertKey {k : String} : ∀ {l : List String},
    l.Pairwise (fun a b => strLe a b = true) →
    (insertKey k l).Pairwise (fun a b => strLe a b = true) := by
  intro l
  induction l with
  | nil => intro _; simp [insertKey]
  | cons x xs ih =>
    intro h
    rw [List.pairwise_cons] at h
    obtain ⟨hx, hxs⟩ := h
    simp only [insertKey]
    split
    · rename_i hkx
      refine List.Pairwise.cons ?_ (List.Pairwise.cons hx hxs)
      intro y hy
      rcases List.mem_cons.mp hy with rfl | hy2
      · exact hkx
      · exact strLe_trans hkx (hx y hy2)
    · rename_i hkx
      have hxk : strLe x k = true := by
        rcases strLe_total x k with h2 | h2
        · exact h2
        · exact absurd h2 hkx
      refine List.Pairwise.cons ?_ (ih hxs)
      intro y hy
      rcases mem_insertKey.mp hy with rfl | hy2
      · exact hxk
      · exact hx y hy2

theorem pairwise_sortStrings : ∀ l : List String,
    (sortStrings l).Pairwise (fun a b => strLe a b = true)
  | [] => List.Pairwise.nil
  | _ :: xs => pairwise_insertKey (pairwise_sortStrings xs)

theorem mem_sortStrings {y : String} : ∀ {l : List String}, y ∈ sortStrings l ↔ y ∈ l := by
  intro l
  induction l with
  | nil => simp [sortStrings]
  | cons x xs ih => simp [sortStrings, mem_insertKey, ih]

/-! ### Lemmas: decoding -/

theorem decodeStrings_map : ∀ l : List String, decodeStrings (l.map JValue.jstr) = .ok l := by
  intro l
  induction l with
  | nil => rfl
  | cons s rest ih => simp [decodeStrings, ih]

/-- An entry listed under a parameter name is an entry of the encoding. -/
theorem mem_toValues {q : QueryParams} (K : String) {p : String × String}
    (h : p ∈ keyEntries q K) : p ∈ ToValues q := by
  unfold keyEntries at h
  exact List.mem_of_mem_filter h

/-! ### The claims -/

/-- The query-parameter object of the order scenario: page 2, limit 50,
`sort=name`, `direction=asc`, everything else at its zero value. -/
def qPage2 : QueryParams := { Page := 2, Limit := 50, Direction := "asc", «Sort» := "name" }

/-- C1, counterexample: the `Add`-order of `ToValues` does follow the declared
field order (`page`, `limit`, `direction`, `sort` here), but the parameter-name
order of the encoded output is the sorted key order `url.Values.Encode`
produces (`direction`, `limit`, `page`, `sort`), which differs from it. -/
theorem claim1_counterexample :
    (ToValues qPage2).map Prod.fst = ["page", "limit", "direction", "sort"] ∧
    sortedKeys (ToValues qPage2) = ["direction", "limit", "page", "sort"] ∧
    sortedKeys (ToValues qPage2) ≠ (ToValues qPage2).map Prod.fst := by
  decide

/-- C1, amended: for every `QueryParams` value, the parameter names in the
encoded query string appear in ascending lexicographic order (the key sort of
`url.Values.Encode`), not in declared field order; the encoded names are
exactly the names of the entries `ToValues` contributes, and the encoding is
the deterministic function of that sorted key list shown. -/
theorem claim1_amended (q : QueryParams) :
    (sortedKeys (ToValues q)).Pairwise (fun a b => strLe a b = true) ∧
    (∀ k, k ∈ sortedKeys (ToValues q) ↔ k ∈ (ToValues q).map Prod.fst) ∧
    valuesEncode (ToValues q) =
      String.intercalate "&" ((sortedKeys (ToValues q)).flatMap fun k =>
        (valuesGet (ToValues q) k).map fun v => queryEscape k ++ "=" ++ queryEscape v) := by
  refine ⟨pairwise_sortStrings _, fun k => ?_, rfl⟩
  simp [sortedKeys, mem_sortStrings, List.mem_dedup]

/-- A 502 response whose body could not be read. -/
def respReadFail : GoResponse :=
  { method := "GET", url := "https://api.bigcommerce.com/stores/abc123/v3/catalog/brands",
    statusCode := 502, body := .error "connection reset" }

/-- C2, counterexample: two errors are discarded inside the library.  A store
hash containing a control byte makes the `url.Parse` call inside `NewClient`
fail, yet `NewClient` returns a client normally (with a nil base URL).  And on
a non-2xx response whose body read fails, `CheckResponse` returns the
zero-valued `ErrorResponse`, not the `io.ReadAll` error it just received. -/
theorem claim2_counterexample :
    (urlParse (defaultBaseURL ++ "abc\x00" ++ "/" ++ apiVersion ++ "/")).isOk = false ∧
    NewClient "abc\x00" "token" =
      { baseURL := none, storeHash := "abc\x00", authToken := "token",
        userAgent := userAgent } ∧
    respReadFail.body = .error "connection reset" ∧
    CheckResponse respReadFail =
      some (.errResp { response := respReadFail, status := 0,
                       title := "", type := "", errors := [] }) ∧
    CheckResponse respReadFail ≠ some (.readErr "connection reset") := by
  decide

/-- C2, amended: errors arising in `NewRequest` (relative-URL parsing, body
serialization) and in `Do` (transport failure, the error `CheckResponse`
returns, and the body read/decode errors of a 2xx response) are returned to
the immediate caller, and none is logged.  Two errors are discarded
internally: `NewClient` drops its `url.Parse` failure via the blank
identifier, returning a client with a nil base URL — on which a later
`NewRequest` panics at `ResolveReference`, before body encoding, instead of
returning an error — and `CheckResponse` drops the `io.ReadAll` error of a
non-2xx body, returning the zero-valued `ErrorResponse` in its place. -/
theorem claim2_amended :
    (∀ h t, (NewClient h t).baseURL =
      (urlParse (defaultBaseURL ++ h ++ "/" ++ apiVersion ++ "/")).toOption) ∧
    (∀ c m u b e, urlParse u = .error e → NewRequest c m u b = .err (.urlErr e)) ∧
    (∀ c m u b rel, urlParse u = .ok rel → c.baseURL = none →
      NewRequest c m u b =
        .panics "runtime error: invalid memory address or nil pointer dereference") ∧
    (∀ c base m u rel msg, urlParse u = .ok rel → c.baseURL = some base →
      NewRequest c m u (.unencodable msg) = .err (.encodingErr msg)) ∧
    (∀ v e, clientDo (.error e) v = (none, some (.transportErr e))) ∧
    (∀ resp v err, CheckResponse resp = some err →
      clientDo (.ok resp) v = (some resp, some err)) ∧
    (∀ resp e, CheckResponse resp = none → resp.body = .error e →
      clientDo (.ok resp) .writer = (some resp, some (.readErr e))) ∧
    (∀ resp e, CheckResponse resp = none → resp.body = .error e →
      clientDo (.ok resp) .jsonTarget = (some resp, some (.readErr e))) ∧
    (∀ resp data e, CheckResponse resp = none → resp.body = .ok data →
      jsonParse data = .error e →
      clientDo (.ok resp) .jsonTarget = (some resp, some (.jsonErr e))) ∧
    (∀ r msg, ¬(200 ≤ r.statusCode ∧ r.statusCode ≤ 299) → r.body = .error msg →
      CheckResponse r = some (.errResp { response := r, status := 0,
                                         title := "", type := "", errors := [] })) := by
  refine ⟨fun h t => rfl, ?_, ?_, ?_, fun v e => rfl, ?_, ?_, ?_, ?_, ?_⟩
  · intro c m u b e he
    unfold NewRequest
    rw [he]
  · intro c m u b rel he hbase
    unfold NewRequest
    rw [he, hbase]
  · intro c base m u rel msg he hbase
    unfold NewRequest
    rw [he, hbase]
  · intro resp v err he
    simp [clientDo, he]
  · intro resp e hnone hb
    simp [clientDo, hnone, hb]
  · intro resp e hnone hb
    simp [clientDo, hnone, hb]
  · intro resp data e hnone hb hp
    simp [clientDo, hnone, hb, hp]
  · intro r msg hcode hb
    unfold CheckResponse
    rw [if_neg hcode, hb]

/-- C2, witness for the amended theorem: a relative path with a control byte
makes `NewRequest` return the URL-parse error to its caller, and the failed
body read of a non-2xx response is replaced by the zero-valued
`ErrorResponse`. -/
theorem claim2_amended_witness :
    NewRequest (NewClient "abc123" "tok") "GET" "catalog\x00products" .noBody =
      .err (.urlErr "net/url: invalid control character in URL") ∧
    CheckResponse respReadFail =
      some (.errResp { response := respReadFail, status := 0,
                       title := "", type := "", errors := [] }) :=
  ⟨claim2_amended.2.1 (NewClient "abc123" "tok") "GET" "catalog\x00products" .noBody
      "net/url: invalid control character in URL" (by decide),
   claim2_amended.2.2.2.2.2.2.2.2.2 respReadFail "connection reset" (by decide) rfl⟩

/-- C3, counterexample: `Page = -1` is not the zero value of its type, yet the
encoding contains no entry at all, because the source gates every numeric
field on `> 0`, not on `!= 0`. -/
theorem claim3_counterexample :
    ({ Page := -1 } : QueryParams).Page ≠ 0 ∧ ToValues { Page := -1 } = [] := by
  decide

/-- C3, amended: the entries of the encoding under each field's parameter
name are exactly these: for a numeric field (`int` or `float64`), its single
entry exactly when the value is strictly positive — for zero or negative
values the encoding has no entry under that name; for a string field, its
single entry exactly when nonempty; for a list field, one entry per element;
for an optional-boolean field, one entry exactly when it is explicitly set. -/
theorem claim3_amended (q : QueryParams) :
    keyEntries q "page" = (if q.Page > 0 then [("page", itoa q.Page)] else []) ∧
    keyEntries q "limit" = (if q.Limit > 0 then [("limit", itoa q.Limit)] else []) ∧
    keyEntries q "direction" =
      (if q.Direction = "" then [] else [("direction", q.Direction)]) ∧
    keyEntries q "sort" = (if q.«Sort» = "" then [] else [("sort", q.«Sort»)]) ∧
    keyEntries q "include" = q.Include.map (fun s => ("include", s)) ∧
    keyEntries q "id" = q.ID.map (fun i => ("id", itoa i)) ∧
    keyEntries q "id:in" = q.IDIn.map (fun i => ("id:in", itoa i)) ∧
    keyEntries q "id:not_in" = q.IDNotIn.map (fun i => ("id:not_in", itoa i)) ∧
    keyEntries q "id:min" = (if q.IDMin > 0 then [("id:min", itoa q.IDMin)] else []) ∧
    keyEntries q "id:max" = (if q.IDMax > 0 then [("id:max", itoa q.IDMax)] else []) ∧
    keyEntries q "id:greater" =
      (if q.IDGreater > 0 then [("id:greater", itoa q.IDGreater)] else []) ∧
    keyEntries q "id:less" = (if q.IDLess > 0 then [("id:less", itoa q.IDLess)] else []) ∧
    keyEntries q "name" = (if q.Name = "" then [] else [("name", q.Name)]) ∧
    keyEntries q "sku" = (if q.SKU = "" then [] else [("sku", q.SKU)]) ∧
    keyEntries q "price" =
      (if q.Price > 0 then [("price", formatFloat2 q.Price)] else []) ∧
    keyEntries q "price:min" =
      (if q.PriceMin > 0 then [("price:min", formatFloat2 q.PriceMin)] else []) ∧
    keyEntries q "price:max" =
      (if q.PriceMax > 0 then [("price:max", formatFloat2 q.PriceMax)] else []) ∧
    keyEntries q "weight" =
      (if q.Weight > 0 then [("weight", formatFloat2 q.Weight)] else []) ∧
    keyEntries q "weight:min" =
      (if q.WeightMin > 0 then [("weight:min", formatFloat2 q.WeightMin)] else []) ∧
    keyEntries q "weight:max" =
      (if q.WeightMax > 0 then [("weight:max", formatFloat2 q.WeightMax)] else []) ∧
    keyEntries q "condition" =
      (if q.Condition = "" then [] else [("condition", q.Condition)]) ∧
    keyEntries q "is_visible" = boolEntry "is_visible" q.IsVisible ∧
    keyEntries q "is_featured" = boolEntry "is_featured" q.IsFeatured ∧
    keyEntries q "categories" = q.CategoryID.map (fun i => ("categories", itoa i)) ∧
    keyEntries q "brand_id" = q.BrandID.map (fun i => ("brand_id", itoa i)) ∧
    keyEntries q "keyword" = (if q.Keywords = "" then [] else [("keyword", q.Keywords)]) ∧
    keyEntries q "is_active" = boolEntry "is_active" q.IsActive ∧
    keyEntries q "date_created" =
      (if q.DateCreated = "" then [] else [("date_created", q.DateCreated)]) ∧
    keyEntries q "date_modified" =
      (if q.DateModified = "" then [] else [("date_modified", q.DateModified)]) :=
  ⟨keyEntries_page q, keyEntries_limit q, keyEntries_direction q, keyEntries_sort q,
   keyEntries_include q, keyEntries_id q, keyEntries_idIn q, keyEntries_idNotIn q,
   keyEntries_idMin q, keyEntries_idMax q, keyEntries_idGreater q, keyEntries_idLess q,
   keyEntries_name q, keyEntries_sku q, keyEntries_price q, keyEntries_priceMin q,
   keyEntries_priceMax q, keyEntries_weight q, keyEntries_weightMin q, keyEntries_weightMax q,
   keyEntries_condition q, keyEntries_isVisible q, keyEntries_isFeatured q,
   keyEntries_categories q, keyEntries_brandId q, keyEntries_keyword q, keyEntries_isActive q,
   keyEntries_dateCreated q, keyEntries_dateModified q⟩

theorem checkResponse_ok {r : GoResponse} (h : 200 ≤ r.statusCode ∧ r.statusCode ≤ 299) :
    CheckResponse r = none := by
  unfold CheckResponse
  rw [if_pos h]

theorem checkResponse_err {r : GoResponse} (h : ¬(200 ≤ r.statusCode ∧ r.statusCode ≤ 299)) :
    (∃ msg, CheckResponse r = some (.jsonErr msg)) ∨
    (∃ er, CheckResponse r = some (.errResp er)) := by
  unfold CheckResponse
  rw [if_neg h]
  cases hb : r.body with
  | error e => exact Or.inr ⟨_, rfl⟩
  | ok data =>
    by_cases hl : 0 < data.length
    · cases hu : unmarshalErrorResponse data { response := r } with
      | error e => exact Or.inl ⟨e, by simp [hl, hu]⟩
      | ok er => exact Or.inr ⟨er, by simp [hl, hu]⟩
    · exact Or.inr ⟨{ response := r }, by simp [hl]⟩

/-- C4: `CheckResponse` returns nil exactly for a status in [200,299]; for any
other status it returns some non-nil error, either the decode failure of a
malformed body or the (possibly zero-valued) `ErrorResponse`. -/
theorem claim4_status_range (r : GoResponse) :
    (CheckResponse r = none ↔ 200 ≤ r.statusCode ∧ r.statusCode ≤ 299) ∧
    (¬(200 ≤ r.statusCode ∧ r.statusCode ≤ 299) →
      (∃ msg, CheckResponse r = some (.jsonErr msg)) ∨
      (∃ er, CheckResponse r = some (.errResp er))) := by
  refine ⟨⟨?_, checkResponse_ok⟩, checkResponse_err⟩
  intro hnone
  by_contra hc
  rcases checkResponse_err hc with ⟨msg, he⟩ | ⟨er, he⟩ <;> rw [he] at hnone <;>
    exact Option.noConfusion hnone

/-- A 500 response with an empty body. -/
def resp500 : GoResponse :=
  { method := "GET", url := "https://api.bigcommerce.com/stores/abc123/v3/catalog/products",
    statusCode := 500, body := .ok "" }

/-- C4, witness: a 500 response yields some non-nil error. -/
theorem claim4_witness :
    (∃ msg, CheckResponse resp500 = some (.jsonErr msg)) ∨
    (∃ er, CheckResponse resp500 = some (.errResp er)) :=
  (claim4_status_range resp500).2 (by decide)

/-- The 422 validation-failure body of the create-product scenario. -/
def body422 : String :=
  "\x7b\"status\":422,\"title\":\"Validation Failed\",\"errors\":[\"price is required\"]\x7d"

/-- The 422 response of the create-product scenario. -/
def resp422 : GoResponse :=
  { method := "POST", url := "https://api.bigcommerce.com/stores/abc123/v3/catalog/products",
    statusCode := 422, body := .ok body422 }

/-- C5: a non-2xx response whose body parses as a well-formed error envelope
(`status` number, `title` string, `errors` string array) makes `CheckResponse`
return an `ErrorResponse` carrying the decoded status, title and errors list,
and, through its embedded response, the failed request's method and URL. -/
theorem claim5_error_envelope (r : GoResponse) (st : Int) (ti : String)
    (errs : List String) (data : String)
    (hcode : ¬(200 ≤ r.statusCode ∧ r.statusCode ≤ 299))
    (hbody : r.body = .ok data)
    (hlen : 0 < data.length)
    (hparse : jsonParse data =
      .ok (.jobj [("status", .jnum st), ("title", .jstr ti),
        ("errors", .jarr (errs.map .jstr))])) :
    ∃ er, CheckResponse r = some (.errResp er) ∧ er.status = st ∧ er.title = ti ∧
      er.errors = errs ∧ er.response.method = r.method ∧ er.response.url = r.url := by
  refine ⟨{ response := r, status := st, title := ti, type := "", errors := errs },
    ?_, rfl, rfl, rfl, rfl, rfl⟩
  simp [CheckResponse, hcode, hbody, hlen, unmarshalErrorResponse, hparse,
    applyFields, setField, setStatus, setTitle, setErrors, decodeStrings_map]

/-- C5, witness: the 422 scenario yields status 422 and exactly the detail
list of the body. -/
theorem claim5_witness :
    ∃ er, CheckResponse resp422 = some (.errResp er) ∧ er.status = 422 ∧
      er.title = "Validation Failed" ∧ er.errors = ["price is required"] ∧
      er.response.method = resp422.method ∧ er.response.url = resp422.url :=
  claim5_error_envelope resp422 422 "Validation Failed" ["price is required"] body422
    (by decide) rfl (by decide) rfl

/-- C6: the page-2/limit-50/sort/direction scenario encodes to exactly this
query string, with no other parameters. -/
theorem claim6_scenario_encoding :
    valuesEncode (ToValues qPage2) = "direction=asc&limit=50&page=2&sort=name" := by
  decide

/-- C7: a field left at its zero/default value contributes no entry under its
parameter name. -/
theorem claim7_defaults_absent (q : QueryParams) :
    (q.Page = 0 → keyEntries q "page" = []) ∧
    (q.Limit = 0 → keyEntries q "limit" = []) ∧
    (q.Direction = "" → keyEntries q "direction" = []) ∧
    (q.«Sort» = "" → keyEntries q "sort" = []) ∧
    (q.Include = [] → keyEntries q "include" = []) ∧
    (q.ID = [] → keyEntries q "id" = []) ∧
    (q.IDIn = [] → keyEntries q "id:in" = []) ∧
    (q.IDNotIn = [] → keyEntries q "id:not_in" = []) ∧
    (q.IDMin = 0 → keyEntries q "id:min" = []) ∧
    (q.IDMax = 0 → keyEntries q "id:max" = []) ∧
    (q.IDGreater = 0 → keyEntries q "id:greater" = []) ∧
    (q.IDLess = 0 → keyEntries q "id:less" = []) ∧
    (q.Name = "" → keyEntries q "name" = []) ∧
    (q.SKU = "" → keyEntries q "sku" = []) ∧
    (q.Price = 0 → keyEntries q "price" = []) ∧
    (q.PriceMin = 0 → keyEntries q "price:min" = []) ∧
    (q.PriceMax = 0 → keyEntries q "price:max" = []) ∧
    (q.Weight = 0 → keyEntries q "weight" = []) ∧
    (q.WeightMin = 0 → keyEntries q "weight:min" = []) ∧
    (q.WeightMax = 0 → keyEntries q "weight:max" = []) ∧
    (q.Condition = "" → keyEntries q "condition" = []) ∧
    (q.IsVisible = none → keyEntries q "is_visible" = []) ∧
    (q.IsFeatured = none → keyEntries q "is_featured" = []) ∧
    (q.CategoryID = [] → keyEntries q "categories" = []) ∧
    (q.BrandID = [] → keyEntries q "brand_id" = []) ∧
    (q.Keywords = "" → keyEntries q "keyword" = []) ∧
    (q.IsActive = none → keyEntries q "is_active" = []) ∧
    (q.DateCreated = "" → keyEntries q "date_created" = []) ∧
    (q.DateModified = "" → keyEntries q "date_modified" = []) :=
  ⟨fun h => by simp [keyEntries_page, h],
   fun h => by simp [keyEntries_limit, h],
   fun h => by simp [keyEntries_direction, h],
   fun h => by simp [keyEntries_sort, h],
   fun h => by simp [keyEntries_include, h],
   fun h => by simp [keyEntries_id, h],
   fun h => by simp [keyEntries_idIn, h],
   fun h => by simp [keyEntries_idNotIn, h],
   fun h => by simp [keyEntries_idMin, h],
   fun h => by simp [keyEntries_idMax, h],
   fun h => by simp [keyEntries_idGreater, h],
   fun h => by simp [keyEntries_idLess, h],
   fun h => by simp [keyEntries_name, h],
   fun h => by simp [keyEntries_sku, h],
   fun h => by simp [keyEntries_price, h],
   fun h => by simp [keyEntries_priceMin, h],
   fun h => by simp [keyEntries_priceMax, h],
   fun h => by simp [keyEntries_weight, h],
   fun h => by simp [keyEntries_weightMin, h],
   fun h => by simp [keyEntries_weightMax, h],
   fun h => by simp [keyEntries_condition, h],
   fun h => by simp [keyEntries_isVisible, h, boolEntry],
   fun h => by simp [keyEntries_isFeatured, h, boolEntry],
   fun h => by simp [keyEntries_categories, h],
   fun h => by simp [keyEntries_brandId, h],
   fun h => by simp [keyEntries_keyword, h],
   fun h => by simp [keyEntries_isActive, h, boolEntry],
   fun h => by simp [keyEntries_dateCreated, h],
   fun h => by simp [keyEntries_dateModified, h]⟩

/-- C7, witness: an all-default object contributes no `page` and no `limit`
entry. -/
theorem claim7_witness :
    keyEntries {} "page" = [] ∧ keyEntries {} "limit" = [] :=
  ⟨(claim7_defaults_absent {}).1 rfl, (claim7_defaults_absent {}).2.1 rfl⟩

/-- C8: each list-valued field contributes exactly one entry per element, in
list order and without deduplication, and `InventoryService.ListContext` for
identifiers [1,2,3] builds exactly the three `id:in` entries 1, 2, 3. -/
theorem claim8_list_fields (q : QueryParams) :
    keyEntries q "include" = q.Include.map (fun s => ("include", s)) ∧
    keyEntries q "id" = q.ID.map (fun i => ("id", itoa i)) ∧
    keyEntries q "id:in" = q.IDIn.map (fun i => ("id:in", itoa i)) ∧
    keyEntries q "id:not_in" = q.IDNotIn.map (fun i => ("id:not_in", itoa i)) ∧
    keyEntries q "categories" = q.CategoryID.map (fun i => ("categories", itoa i)) ∧
    keyEntries q "brand_id" = q.BrandID.map (fun i => ("brand_id", itoa i)) ∧
    inventoryListValues [1, 2, 3] = [("id:in", "1"), ("id:in", "2"), ("id:in", "3")] :=
  ⟨keyEntries_include q, keyEntries_id q, keyEntries_idIn q, keyEntries_idNotIn q,
   keyEntries_categories q, keyEntries_brandId q, by decide⟩

/-- C9: an optional-boolean field contributes an entry exactly when it is
explicitly set, and the value is the literal lowercase boolean token. -/
theorem claim9_bool_fields (q : QueryParams) :
    (q.IsVisible = none → keyEntries q "is_visible" = []) ∧
    (∀ b, q.IsVisible = some b →
      keyEntries q "is_visible" = [("is_visible", if b then "true" else "false")]) ∧
    (q.IsFeatured = none → keyEntries q "is_featured" = []) ∧
    (∀ b, q.IsFeatured = some b →
      keyEntries q "is_featured" = [("is_featured", if b then "true" else "false")]) ∧
    (q.IsActive = none → keyEntries q "is_active" = []) ∧
    (∀ b, q.IsActive = some b →
      keyEntries q "is_active" = [("is_active", if b then "true" else "false")]) :=
  ⟨fun h => by simp [keyEntries_isVisible, h, boolEntry],
   fun b hb => by simp [keyEntries_isVisible, hb, boolEntry, formatBool],
   fun h => by simp [keyEntries_isFeatured, h, boolEntry],
   fun b hb => by simp [keyEntries_isFeatured, hb, boolEntry, formatBool],
   fun h => by simp [keyEntries_isActive, h, boolEntry],
   fun b hb => by simp [keyEntries_isActive, hb, boolEntry, formatBool]⟩

/-- C9, witness: a set visibility filter renders its lowercase token. -/
theorem claim9_witness :
    keyEntries { IsVisible := some true } "is_visible" = [("is_visible", "true")] ∧
    keyEntries { IsFeatured := some false } "is_featured" = [("is_featured", "false")] :=
  ⟨(claim9_bool_fields { IsVisible := some true }).2.1 true rfl,
   (claim9_bool_fields { IsFeatured := some false }).2.2.2.1 false rfl⟩

/-- C10: a non-2xx response whose body is empty or could not be read yields
the `ErrorResponse` with all-zero decoded fields, not a read or decode
error. -/
theorem claim10_empty_body (r : GoResponse)
    (hcode : ¬(200 ≤ r.statusCode ∧ r.statusCode ≤ 299))
    (hbody : (∃ msg, r.body = .error msg) ∨ r.body = .ok "") :
    CheckResponse r = some (.errResp
      { response := r, status := 0, title := "", type := "", errors := [] }) := by
  unfold CheckResponse
  rw [if_neg hcode]
  rcases hbody with ⟨msg, hb⟩ | hb <;> rw [hb]
  rfl

/-- A 404 response with an empty body. -/
def resp404 : GoResponse :=
  { method := "GET", url := "https://api.bigcommerce.com/stores/abc123/v3/catalog/products/9",
    statusCode := 404, body := .ok "" }

/-- C10, witness: the empty-body 404 yields the zero-valued `ErrorResponse`. -/
theorem claim10_witness :
    CheckResponse resp404 = some (.errResp
      { response := resp404, status := 0, title := "", type := "", errors := [] }) :=
  claim10_empty_body resp404 (by decide) (Or.inr rfl)
